import Mathlib

/-!
Verification development for the ofair-make-integration gateway
(Supabase Edge Functions written in TypeScript/Deno).

Shallow embedding conventions:
* Timestamps are modelled as milliseconds since the Unix epoch (`Int`);
  the edge runtime executes with a UTC local timezone, so the source's
  calendar-component flooring (`new Date(y, m, d, h, min, 0, 0)` built
  from local getters) coincides with epoch-arithmetic flooring to the
  minute / hour / day boundary.  ISO-string rendering of timestamps is
  abstracted to the underlying millisecond value.
* Each `new Date()` / `Date.now()` in the source is one read of a clock;
  the clock is modelled as a function from the read index to the value
  read, threaded in program order through `checkRateLimit`.
* JavaScript numbers holding counts, ceilings and times are modelled as
  `Int` (all the arithmetic involved is integral), so `Math.max(0, ·)`
  clamping is meaningful and not absorbed by the number representation.
* Database tables are modelled as explicit stores; a `.single()` select
  yields `none` unless the filtered result has exactly one row.
* JavaScript objects (request bodies, header maps) are modelled as
  string-keyed finite maps.
-/

namespace Ofair

/-! ## Values of JSON-ish request bodies (`Record<string, unknown>`) -/

/-- A field value of a request body: a string, or any non-string value
(whose identity is irrelevant to sanitization, which only acts on
strings). -/
inductive RValue where
  | str (s : String)
  | other (n : Nat)
deriving DecidableEq, Repr

/-- A request body: a string-keyed map, mirroring a JS object. -/
def Body := String → Option RValue

/-- Build a body from field/value pairs (first occurrence wins, as in a
JS object literal). -/
def Body.ofList (l : List (String × RValue)) : Body :=
  fun k => (l.find? (fun p => p.1 = k)).map (fun p => p.2)

/-- Pointwise field update, mirroring `obj.k = v`. -/
def Body.set (b : Body) (key : String) (v : RValue) : Body :=
  fun k => if k = key then some v else b k

/-- Pointwise field removal, mirroring `delete obj.k`. -/
def Body.del (b : Body) (key : String) : Body :=
  fun k => if k = key then none else b k

/-! ## `sanitizeRequestBody` (src/supabase/functions/_shared/requestLogger.ts) -/

/-- The mask applied to a non-empty string `client_phone` value:
`phone.length > 4 ? '*'.repeat(phone.length - 4) + phone.slice(-4) : '****'`. -/
def maskPhone (phone : String) : String :=
  if 4 < phone.length then
    String.mk (List.replicate (phone.length - 4) '*' ++ phone.data.drop (phone.length - 4))
  else "****"

/-- Embedding of `sanitizeRequestBody` for a present (non-null) body:
copies the body, masks `client_phone` when it is a truthy (non-empty)
string, and deletes `password`, `token` and `api_key`. -/
def sanitizeRequestBody (body : Body) : Body :=
  let sanitized :=
    match body "client_phone" with
    | some (RValue.str phone) =>
        if phone ≠ "" then Body.set body "client_phone" (RValue.str (maskPhone phone))
        else body
    | _ => body
  ((sanitized.del "password").del "token").del "api_key"

/-! ## Rate-limit configuration (`getRateLimitConfig`) -/

/-- Mirror of the `RateLimitConfig` interface. -/
structure RateLimitConfig where
  requests_per_minute : Int
  requests_per_hour : Int
  requests_per_day : Int
deriving DecidableEq, Repr

/-- Mirror of `DEFAULT_LIMITS`. -/
def DEFAULT_LIMITS : RateLimitConfig :=
  { requests_per_minute := 60
    requests_per_hour := 1000
    requests_per_day := 10000 }

/-- The `api_rate_limit_config` table, abstracted by its three
`.single()` lookups: the active row scoped to an api key, the active row
scoped to a professional, and the active global row. -/
structure ConfigStore where
  keyScoped : String → Option RateLimitConfig
  proScoped : String → Option RateLimitConfig
  globalScoped : Option RateLimitConfig

/-- Embedding of `getRateLimitConfig`: api-key-scoped config first, then
professional-scoped, then global, then `DEFAULT_LIMITS`.  The source
performs only `.select()` queries here, so the embedding is a pure
function of the store. -/
def getRateLimitConfig (store : ConfigStore) (apiKeyId professionalId : String) :
    RateLimitConfig :=
  match store.keyScoped apiKeyId with
  | some keyConfig => keyConfig
  | none =>
    match store.proScoped professionalId with
    | some proConfig => proConfig
    | none =>
      match store.globalScoped with
      | some globalConfig => globalConfig
      | none => DEFAULT_LIMITS

/-! ## Window flooring (`getWindowStart` / `getWindowEnd`) -/

def msPerMinute : Int := 60 * 1000
def msPerHour : Int := 60 * 60 * 1000
def msPerDay : Int := 24 * 60 * 60 * 1000

/-- `getWindowStart('minute')` evaluated at clock value `now`. -/
def minuteFloor (now : Int) : Int := now - now % msPerMinute

/-- `getWindowStart('hour')` evaluated at clock value `now`. -/
def hourFloor (now : Int) : Int := now - now % msPerHour

/-- `getWindowStart('day')` evaluated at clock value `now`. -/
def dayFloor (now : Int) : Int := now - now % msPerDay

/-- `getWindowEnd('minute')` evaluated at clock value `now`. -/
def minuteEnd (now : Int) : Int := minuteFloor now + msPerMinute

/-- `getWindowEnd('hour')` evaluated at clock value `now`. -/
def hourEnd (now : Int) : Int := hourFloor now + msPerHour

/-- `getWindowEnd('day')` evaluated at clock value `now`. -/
def dayEnd (now : Int) : Int := dayFloor now + msPerDay

/-- `Math.ceil(x / 1000)` for the non-negative millisecond differences
arising in retry-after computations. -/
def ceilSeconds (x : Int) : Int := (x + 999) / 1000

/-! ## Rate-limit tracking (`api_rate_limit_tracking`) -/

/-- Mirror of one `api_rate_limit_tracking` row for an identifier. -/
structure TrackRow where
  minute_window : Int
  minute_count : Int
  hour_window : Int
  hour_count : Int
  day_window : Int
  day_count : Int
  last_request_at : Int
deriving DecidableEq, Repr

/-- The tracking table keyed by identifier (the identifier type is the
constant `'api_key'` throughout the source, so it is dropped). -/
def TrackTable := String → Option TrackRow

/-- Table with no rows. -/
def TrackTable.empty : TrackTable := fun _ => none

/-- Upsert keyed on the identifier, mirroring
`.upsert({...}, { onConflict: 'identifier,identifier_type' })`. -/
def TrackTable.upsert (table : TrackTable) (id : String) (row : TrackRow) :
    TrackTable :=
  fun k => if k = id then some row else table k

/-- The three effective counts (minute, hour, day) computed from the
fetched tracking row and the three window starts: a stored window older
than the freshly computed one resets its count to zero; a missing row
gives all zeros. -/
def effCounts (tracking : Option TrackRow) (minuteWindow hourWindow dayWindow : Int) :
    Int × Int × Int :=
  match tracking with
  | none => (0, 0, 0)
  | some tr =>
      ( if tr.minute_window < minuteWindow then 0 else tr.minute_count
      , if tr.hour_window < hourWindow then 0 else tr.hour_count
      , if tr.day_window < dayWindow then 0 else tr.day_count )

/-- `minuteCount >= config.requests_per_minute`. -/
def minuteExceeded (config : RateLimitConfig) (counts : Int × Int × Int) : Bool :=
  config.requests_per_minute ≤ counts.1

/-- `hourCount >= config.requests_per_hour`. -/
def hourExceeded (config : RateLimitConfig) (counts : Int × Int × Int) : Bool :=
  config.requests_per_hour ≤ counts.2.1

/-- `dayCount >= config.requests_per_day`. -/
def dayExceeded (config : RateLimitConfig) (counts : Int × Int × Int) : Bool :=
  config.requests_per_day ≤ counts.2.2

/-- Mirror of the `RateLimitResult` interface (reset timestamps as epoch
milliseconds). -/
structure RateLimitResult where
  allowed : Bool
  remainingMinute : Int
  remainingHour : Int
  remainingDay : Int
  resetMinute : Int
  resetHour : Int
  resetDay : Int
  retryAfter : Option Int
  errorCode : Option String
deriving DecidableEq, Repr

/-- The row written by the allowed-branch upsert: the freshly computed
window starts and the incremented counts. -/
def upsertRow (minuteWindow hourWindow dayWindow : Int)
    (counts : Int × Int × Int) (lastRequestAt : Int) : TrackRow :=
  { minute_window := minuteWindow
    minute_count := counts.1 + 1
    hour_window := hourWindow
    hour_count := counts.2.1 + 1
    day_window := dayWindow
    day_count := counts.2.2 + 1
    last_request_at := lastRequestAt }

/-- The three window starts computed at the top of `checkRateLimit`:
each granularity floors its own fresh clock read (`getWindowStart` calls
`new Date()` itself), reads 0, 1 and 2 in program order. -/
def checkWindows (clock : Nat → Int) : Int × Int × Int :=
  (minuteFloor (clock 0), hourFloor (clock 1), dayFloor (clock 2))

/-- Embedding of `checkRateLimit`.  `clock i` is the value of the i-th
clock read on the executed path, in program order:
reads 0-2 are the three `getWindowStart` calls; on the denial path read 3
is the `getWindowEnd` inside the retry-after computation and read 4 the
`Date.now()` it is compared against, and reads 5-7 are the `getWindowEnd`
calls of the reset block; on the allowed path read 3 is the
`new Date()` stored as `last_request_at` and reads 4-6 are the reset
block.  Returns the result and the tracking table after the call. -/
def checkRateLimit (store : ConfigStore) (apiKeyId professionalId : String)
    (clock : Nat → Int) (table : TrackTable) : RateLimitResult × TrackTable :=
  let config := getRateLimitConfig store apiKeyId professionalId
  let identifier := apiKeyId
  let windows := checkWindows clock
  let minuteWindow := windows.1
  let hourWindow := windows.2.1
  let dayWindow := windows.2.2
  let tracking := table identifier
  let counts := effCounts tracking minuteWindow hourWindow dayWindow
  if minuteExceeded config counts || hourExceeded config counts ||
     dayExceeded config counts then
    let retryAfter :=
      if dayExceeded config counts then ceilSeconds (dayEnd (clock 3) - clock 4)
      else if hourExceeded config counts then ceilSeconds (hourEnd (clock 3) - clock 4)
      else ceilSeconds (minuteEnd (clock 3) - clock 4)
    ( { allowed := false
        remainingMinute := max 0 (config.requests_per_minute - counts.1)
        remainingHour := max 0 (config.requests_per_hour - counts.2.1)
        remainingDay := max 0 (config.requests_per_day - counts.2.2)
        resetMinute := minuteEnd (clock 5)
        resetHour := hourEnd (clock 6)
        resetDay := dayEnd (clock 7)
        retryAfter := some retryAfter
        errorCode := some "rate_limit_exceeded" }
    , table )
  else
    let newRow := upsertRow minuteWindow hourWindow dayWindow counts (clock 3)
    let table' := table.upsert identifier newRow
    ( { allowed := true
        remainingMinute := config.requests_per_minute - (counts.1 + 1)
        remainingHour := config.requests_per_hour - (counts.2.1 + 1)
        remainingDay := config.requests_per_day - (counts.2.2 + 1)
        resetMinute := minuteEnd (clock 4)
        resetHour := hourEnd (clock 5)
        resetDay := dayEnd (clock 6)
        retryAfter := none
        errorCode := none }
    , table' )

/-! ## `getRateLimitHeaders` -/

/-- Embedding of `getRateLimitHeaders`: the header map as an association
list, limit headers hard-coded, remaining/reset taken from the result. -/
def getRateLimitHeaders (result : RateLimitResult) : List (String × String) :=
  [ ("X-RateLimit-Limit-Minute", "60")
  , ("X-RateLimit-Remaining-Minute", toString result.remainingMinute)
  , ("X-RateLimit-Reset-Minute", toString result.resetMinute)
  , ("X-RateLimit-Limit-Hour", "1000")
  , ("X-RateLimit-Remaining-Hour", toString result.remainingHour)
  , ("X-RateLimit-Reset-Hour", toString result.resetHour)
  , ("X-RateLimit-Limit-Day", "10000")
  , ("X-RateLimit-Remaining-Day", toString result.remainingDay)
  , ("X-RateLimit-Reset-Day", toString result.resetDay) ]

/-- Header lookup in the association list. -/
def getHeader (headers : List (String × String)) (name : String) : Option String :=
  (headers.find? (fun p => p.1 = name)).map (fun p => p.2)

/-! ## Two concurrent `checkRateLimit` calls for the same identifier

The source performs the tracking fetch (`.select().single()`) and the
counter update (`.upsert(...)`) as two separate storage operations.  A
call is therefore split into the read phase (fetch plus decision) and
the write phase (the upsert, executed only on the allowed branch), using
the very same `effCounts` / exceeded / `upsertRow` definitions that
`checkRateLimit` itself is built from; interleavings of the phases of
two calls model two concurrent requests for one credential. -/

/-- Read phase of one `checkRateLimit` call at time `now` (all clock
reads of the call at the same instant): the admit decision and the
effective counts it was based on. -/
def callRead (config : RateLimitConfig) (now : Int) (table : TrackTable)
    (id : String) : Bool × (Int × Int × Int) :=
  let counts := effCounts (table id) (minuteFloor now) (hourFloor now) (dayFloor now)
  ( !(minuteExceeded config counts || hourExceeded config counts ||
      dayExceeded config counts)
  , counts )

/-- Write phase of one `checkRateLimit` call: on an admit decision,
upsert the incremented row; on a deny decision the call wrote nothing. -/
def callWrite (now : Int) (table : TrackTable) (id : String)
    (read : Bool × (Int × Int × Int)) : TrackTable :=
  if read.1 then
    table.upsert id (upsertRow (minuteFloor now) (hourFloor now) (dayFloor now) read.2 now)
  else table

/-- Two calls A and B for the same identifier, interleaved as
read A, read B, write A, write B (both reads before either write).
Returns (A allowed, B allowed, final table). -/
def runTwoInterleaved (config : RateLimitConfig) (now : Int) (id : String)
    (table : TrackTable) : Bool × Bool × TrackTable :=
  let a := callRead config now table id
  let b := callRead config now table id
  let table₁ := callWrite now table id a
  let table₂ := callWrite now table₁ id b
  (a.1, b.1, table₂)

/-- The same two calls executed serially: read A, write A, read B,
write B. -/
def runTwoSequential (config : RateLimitConfig) (now : Int) (id : String)
    (table : TrackTable) : Bool × Bool × TrackTable :=
  let a := callRead config now table id
  let table₁ := callWrite now table id a
  let b := callRead config now table₁ id
  let table₂ := callWrite now table₁ id b
  (a.1, b.1, table₂)

/-! ## API keys (`src/supabase/functions/_shared/apiKeyAuth.ts`) -/

/-- One `api_keys` row, restricted to the columns `validateApiKey`
selects and updates. -/
structure ApiKeyRow where
  id : String
  professional_id : String
  key_hash : String
  is_active : Bool
  expires_at : Option Int
  revoked_at : Option Int
  last_used_at : Option Int
deriving DecidableEq, Repr

/-- The `api_keys` table. -/
def KeyStore := List ApiKeyRow

/-- `.select(...).eq('key_hash', h).single()`: exactly one matching row,
otherwise an error (modelled as `none`). -/
def lookupByHash (store : KeyStore) (h : String) : Option ApiKeyRow :=
  match store.filter (fun row => row.key_hash = h) with
  | [row] => some row
  | _ => none

/-- `.update({ is_active: false }).eq('id', keyId)`. -/
def deactivateKey (store : KeyStore) (keyId : String) : KeyStore :=
  store.map (fun row => if row.id = keyId then { row with is_active := false } else row)

/-- `.update({ last_used_at: now }).eq('id', keyId)`. -/
def touchLastUsed (store : KeyStore) (keyId : String) (now : Int) : KeyStore :=
  store.map (fun row => if row.id = keyId then { row with last_used_at := some now } else row)

/-- `/^ofair_pk_[A-Za-z0-9]{32}$/`: the fixed prefix followed by exactly
32 ASCII alphanumeric characters (stated over the character sequence). -/
def validKeyFormat (apiKey : String) : Bool :=
  apiKey.data.take 9 == "ofair_pk_".data &&
  (apiKey.data.drop 9).length == 32 &&
  (apiKey.data.drop 9).all (fun c => c.isAlpha || c.isDigit)

/-- `data.expires_at && new Date(data.expires_at) < new Date()`: an
expiry time is set and lies strictly before `now`. -/
def isExpired (row : ApiKeyRow) (now : Int) : Bool :=
  match row.expires_at with
  | some e => decide (e < now)
  | none => false

/-- Mirror of the `ApiKeyValidationResult` interface. -/
structure ApiKeyValidationResult where
  isValid : Bool
  professionalId : Option String := none
  apiKeyId : Option String := none
  errorCode : Option String := none
deriving DecidableEq, Repr

/-- Embedding of `validateApiKey`.  `hashKey` abstracts the SHA-256 hex
digest (`hashApiKey`); `now` is the clock value of the expiry
comparison and the `last_used_at` touch.  Returns the result together
with the key store after the call (the expiry branch persists
`is_active = false`; the success branch persists `last_used_at`). -/
def validateApiKey (hashKey : String → String) (now : Int) (apiKey : String)
    (store : KeyStore) : ApiKeyValidationResult × KeyStore :=
  if apiKey = "" then
    ({ isValid := false, errorCode := some "missing_api_key" }, store)
  else if !validKeyFormat apiKey then
    ({ isValid := false, errorCode := some "invalid_api_key_format" }, store)
  else
    let keyHash := hashKey apiKey
    match lookupByHash store keyHash with
    | none =>
        ({ isValid := false, errorCode := some "invalid_api_key" }, store)
    | some data =>
        if !data.is_active then
          ({ isValid := false, errorCode := some "inactive_api_key" }, store)
        else if data.revoked_at.isSome then
          ({ isValid := false, errorCode := some "revoked_api_key" }, store)
        else if isExpired data now then
          ( { isValid := false, errorCode := some "expired_api_key" }
          , deactivateKey store data.id )
        else
          ( { isValid := true
              professionalId := some data.professional_id
              apiKeyId := some data.id }
          , touchLastUsed store data.id now )

/-! ## Gateway pipeline (`submit-lead-api` serve handler)

The handler is embedded as a function of an oracle fixing the request
shape and the outcome of each effectful stage.  `validateApiKey` wraps
its own body in try/catch and so never throws; `checkRateLimit` and
`submitLead` may throw (`Except.error`), which the handler's outer
catch-all turns into a 500 after logging; `req.json()` may throw, which
is caught locally and turned into a 400.  `finalizeRequest` never
throws (`logRequest` catches internally); each invocation of it is
recorded as one log entry carrying the response status. -/

/-- Outcome of the delegated `submitLead` collaborator. -/
structure SubmitResult where
  success : Bool
  leadId : Option String := none
  submitErrorCode : Option String := none
deriving DecidableEq, Repr

/-- The request shape and stage outcomes for one inbound call. -/
structure GatewayOracle where
  method : String
  apiKeyHeader : Option String
  keyValidation : ApiKeyValidationResult
  rateLimitCall : Except Unit RateLimitResult
  parseBody : Except Unit Body
  submitCall : Except Unit SubmitResult

/-- One recorded `finalizeRequest` invocation: the response status it
logged. -/
abbrev LogEntry := Nat

/-- The `try` block of the handler (everything after the CORS-preflight
return and the request-context creation): either a normal completion
with the response status and the `finalizeRequest` invocations made, or
a propagated thrown error. -/
def tryBody (o : GatewayOracle) : Except Unit (Nat × List LogEntry) :=
  if o.method ≠ "POST" then .ok (405, [405])
  else
    match o.apiKeyHeader with
    | none => .ok (401, [401])
    | some _ =>
      if !o.keyValidation.isValid then .ok (401, [401])
      else
        match o.rateLimitCall with
        | .error e => .error e
        | .ok rateLimitResult =>
          if !rateLimitResult.allowed then .ok (429, [429])
          else
            match o.parseBody with
            | .error _ => .ok (400, [400])
            | .ok _ =>
              match o.submitCall with
              | .error e => .error e
              | .ok result =>
                if !result.success then .ok (400, [400])
                else .ok (201, [201])

/-- Embedding of the `serve` handler of `submit-lead-api`: the CORS
preflight returns immediately; otherwise the try block runs and the
catch-all maps any thrown error to a 500 logged via `finalizeRequest`.
Returns the response status and the list of `finalizeRequest`
invocations, in order. -/
def handleSubmitLead (o : GatewayOracle) : Nat × List LogEntry :=
  if o.method = "OPTIONS" then (200, [])
  else
    match tryBody o with
    | .ok res => res
    | .error _ => (500, [500])

/-! ## Spec-side predicate (for stating the sanitization claim)

The spec speaks of "phone-number-shaped fields"; its masking example is
the value `"0501234567"`.  The predicate below captures values of that
shape (all digits, at least 9 characters) and is used only to state
claims about the spec's wording, never inside the embedded code. -/

/-- A "phone-number-shaped" string value in the sense of the spec's
masking example. -/
def specPhoneShaped (s : String) : Bool :=
  s.data.all (fun c => c.isDigit) && decide (9 ≤ s.data.length)

/-! ## Concrete fixtures for witnesses and counterexamples -/

/-- Config store with no policy rows at any scope. -/
def emptyConfigStore : ConfigStore :=
  { keyScoped := fun _ => none, proScoped := fun _ => none, globalScoped := none }

/-- Tracking row whose day counter already sits at the default day
ceiling, all windows starting at epoch 0. -/
def dayFullRow : TrackRow :=
  { minute_window := 0, minute_count := 0
    hour_window := 0, hour_count := 0
    day_window := 0, day_count := 10000
    last_request_at := 0 }

/-- Table holding `dayFullRow` for identifier `"key1"`. -/
def dayFullTable : TrackTable :=
  fun k => if k = "key1" then some dayFullRow else none

/-- Tracking row whose minute counter already sits at the default
minute ceiling. -/
def minuteFullRow : TrackRow :=
  { minute_window := 0, minute_count := 60
    hour_window := 0, hour_count := 60
    day_window := 0, day_count := 60
    last_request_at := 0 }

/-- Table holding `minuteFullRow` for identifier `"key1"`. -/
def minuteFullTable : TrackTable :=
  fun k => if k = "key1" then some minuteFullRow else none

/-- A clock returning the same instant at every read. -/
def constClock (t : Int) : Nat → Int := fun _ => t

/-- A policy with a per-minute ceiling of 1 (hour and day ceilings
unreachable in the scenarios considered). -/
def minuteOneConfig : RateLimitConfig :=
  { requests_per_minute := 1, requests_per_hour := 1000, requests_per_day := 10000 }

/-- A clock whose first read falls just before an hour boundary
(00:59:59.999) and whose later reads fall on the boundary
(01:00:00.000). -/
def skewClock : Nat → Int := fun i => if i = 0 then 3599999 else 3600000

/-- A syntactically valid API key (fixed prefix plus 32 alphanumerics). -/
def wfKey : String := "ofair_pk_00000000000000000000000000000000"

/-- Digest function used in concrete scenarios (the embedding treats the
digest as an abstract function; identity suffices for witnesses). -/
def idHash : String → String := fun s => s

/-- A stored key row for `wfKey` that expired at time 5. -/
def expiredRow : ApiKeyRow :=
  { id := "k1", professional_id := "p1", key_hash := wfKey
    is_active := true, expires_at := some 5, revoked_at := none
    last_used_at := none }

/-- Key store holding only `expiredRow`. -/
def expiredStore : KeyStore := [expiredRow]

/-- Body with a phone-shaped value under the field name `phone` and a
3-character phone under `client_phone`. -/
def cexBody : Body :=
  Body.ofList [("phone", RValue.str "0501234567"), ("client_phone", RValue.str "123")]

/-- Body with a 3-character phone under `client_phone` and a
`password` field. -/
def wBody : Body :=
  Body.ofList [("client_phone", RValue.str "123"), ("password", RValue.str "hunter2")]

/-- Oracle for a POST request that carries no API key header. -/
def missingKeyOracle : GatewayOracle :=
  { method := "POST"
    apiKeyHeader := none
    keyValidation := { isValid := false }
    rateLimitCall := .error ()
    parseBody := .error ()
    submitCall := .error () }

/-- Oracle for a CORS preflight request. -/
def preflightOracle : GatewayOracle :=
  { method := "OPTIONS"
    apiKeyHeader := none
    keyValidation := { isValid := false }
    rateLimitCall := .error ()
    parseBody := .error ()
    submitCall := .error () }

/-! ## Theorems -/

/-- C4: for every (credentialId, tenantId), policy resolution returns
the first match of an active credential-scoped policy, else an active
tenant-scoped policy, else the active global policy, else the
compiled-in default of 60 per minute, 1000 per hour, 10000 per day.
Resolution is a pure function of the configuration store in the
embedding — the source performs only `.select()` reads here, so it has
no writes. -/
theorem policy_resolution_order (store : ConfigStore) (apiKeyId professionalId : String) :
    (∀ c, store.keyScoped apiKeyId = some c →
        getRateLimitConfig store apiKeyId professionalId = c) ∧
    (store.keyScoped apiKeyId = none → ∀ c, store.proScoped professionalId = some c →
        getRateLimitConfig store apiKeyId professionalId = c) ∧
    (store.keyScoped apiKeyId = none → store.proScoped professionalId = none →
        ∀ c, store.globalScoped = some c →
        getRateLimitConfig store apiKeyId professionalId = c) ∧
    (store.keyScoped apiKeyId = none → store.proScoped professionalId = none →
        store.globalScoped = none →
        getRateLimitConfig store apiKeyId professionalId =
          { requests_per_minute := 60, requests_per_hour := 1000
            requests_per_day := 10000 }) := by
  refine ⟨?_, ?_, ?_, ?_⟩
  · intro c hc
    simp [getRateLimitConfig, hc]
  · intro h1 c hc
    simp [getRateLimitConfig, h1, hc]
  · intro h1 h2 c hc
    simp [getRateLimitConfig, h1, h2, hc]
  · intro h1 h2 h3
    simp [getRateLimitConfig, h1, h2, h3, DEFAULT_LIMITS]

/-- Witness for `policy_resolution_order`: on a store with no policy
rows at all, resolution yields the compiled-in default. -/
theorem policy_resolution_order_witness :
    emptyConfigStore.keyScoped "key1" = none ∧
    emptyConfigStore.proScoped "p1" = none ∧
    emptyConfigStore.globalScoped = none ∧
    getRateLimitConfig emptyConfigStore "key1" "p1" =
      { requests_per_minute := 60, requests_per_hour := 1000
        requests_per_day := 10000 } :=
  ⟨rfl, rfl, rfl, (policy_resolution_order emptyConfigStore "key1" "p1").2.2.2 rfl rfl rfl⟩

/-- C10: for every `RateLimitResult`, the response headers report the
limit values as the fixed constants 60 (minute), 1000 (hour), 10000
(day) regardless of the result (and hence of whatever policy was
resolved), while the remaining and reset header values are taken from
the result. -/
theorem headers_hardcode_limits (result : RateLimitResult) :
    getHeader (getRateLimitHeaders result) "X-RateLimit-Limit-Minute" = some "60" ∧
    getHeader (getRateLimitHeaders result) "X-RateLimit-Limit-Hour" = some "1000" ∧
    getHeader (getRateLimitHeaders result) "X-RateLimit-Limit-Day" = some "10000" ∧
    getHeader (getRateLimitHeaders result) "X-RateLimit-Remaining-Minute"
      = some (toString result.remainingMinute) ∧
    getHeader (getRateLimitHeaders result) "X-RateLimit-Remaining-Hour"
      = some (toString result.remainingHour) ∧
    getHeader (getRateLimitHeaders result) "X-RateLimit-Remaining-Day"
      = some (toString result.remainingDay) ∧
    getHeader (getRateLimitHeaders result) "X-RateLimit-Reset-Minute"
      = some (toString result.resetMinute) ∧
    getHeader (getRateLimitHeaders result) "X-RateLimit-Reset-Hour"
      = some (toString result.resetHour) ∧
    getHeader (getRateLimitHeaders result) "X-RateLimit-Reset-Day"
      = some (toString result.resetDay) :=
  ⟨rfl, rfl, rfl, rfl, rfl, rfl, rfl, rfl, rfl⟩

/-- C1 (violation exhibit): the source performs the tracking fetch and
the counter upsert as two separate storage operations, so with a
per-minute ceiling of 1 and two concurrent calls whose reads both
precede both writes, both calls are admitted — while the same two calls
run serially admit exactly one.  This contradicts the claimed
exactly-K-of-N admission under concurrency. -/
theorem race_admits_both_calls :
    (runTwoInterleaved minuteOneConfig 0 "key1" TrackTable.empty).1 = true ∧
    (runTwoInterleaved minuteOneConfig 0 "key1" TrackTable.empty).2.1 = true ∧
    (runTwoSequential minuteOneConfig 0 "key1" TrackTable.empty).1 = true ∧
    (runTwoSequential minuteOneConfig 0 "key1" TrackTable.empty).2.1 = false := by
  decide

/-- C9 (violation exhibit): the three window starts of one
`checkRateLimit` decision floor three separate clock reads
(`getWindowStart` calls `new Date()` itself).  With the first read at
00:59:59.999 and the second at 01:00:00.000, the computed triple
(minute 00:59, hour 01:00, day 00:00) is not the floor of any single
instant: no single captured "now" produces it. -/
theorem windows_not_from_single_now :
    ¬ ∃ t : Int, checkWindows skewClock = (minuteFloor t, hourFloor t, dayFloor t) := by
  rintro ⟨t, ht⟩
  have hval : checkWindows skewClock = (3540000, 3600000, 0) := by decide
  rw [hval] at ht
  have h1 : (3540000 : Int) = minuteFloor t := congrArg Prod.fst ht
  have h2 : (3600000 : Int) = hourFloor t := congrArg (fun p => p.2.1) ht
  simp only [minuteFloor, hourFloor, msPerMinute, msPerHour] at h1 h2
  omega

/-- C3: whenever `checkRateLimit` denies (some effective count meets or
exceeds its ceiling), it returns without applying any increment — the
tracking table after the call is exactly the table before it — and each
reported remaining quota is clamped at zero, never negative. -/
theorem denied_no_increment (store : ConfigStore) (apiKeyId professionalId : String)
    (clock : Nat → Int) (table : TrackTable)
    (h : (checkRateLimit store apiKeyId professionalId clock table).1.allowed = false) :
    (checkRateLimit store apiKeyId professionalId clock table).2 = table ∧
    0 ≤ (checkRateLimit store apiKeyId professionalId clock table).1.remainingMinute ∧
    0 ≤ (checkRateLimit store apiKeyId professionalId clock table).1.remainingHour ∧
    0 ≤ (checkRateLimit store apiKeyId professionalId clock table).1.remainingDay := by
  simp only [checkRateLimit] at h ⊢
  split at h
  next hc =>
    simp [hc, le_max_iff]
  next hc =>
    simp [hc] at h

/-- Witness for `denied_no_increment`: the default minute ceiling is
already consumed, the call denies, leaves the table untouched, and all
remaining quotas are non-negative. -/
theorem denied_no_increment_witness :
    (checkRateLimit emptyConfigStore "key1" "p1" (constClock 0) minuteFullTable).1.allowed
      = false ∧
    ((checkRateLimit emptyConfigStore "key1" "p1" (constClock 0) minuteFullTable).2
        = minuteFullTable ∧
      0 ≤ (checkRateLimit emptyConfigStore "key1" "p1" (constClock 0) minuteFullTable).1.remainingMinute ∧
      0 ≤ (checkRateLimit emptyConfigStore "key1" "p1" (constClock 0) minuteFullTable).1.remainingHour ∧
      0 ≤ (checkRateLimit emptyConfigStore "key1" "p1" (constClock 0) minuteFullTable).1.remainingDay) :=
  ⟨by decide, denied_no_increment emptyConfigStore "key1" "p1" (constClock 0) minuteFullTable
      (by decide)⟩

/-- C2: on a denial evaluated with all clock reads at one instant `t`,
the returned retry-after is the number of seconds (rounded up) until
the end of the current window of the most restrictive exceeded
granularity: the day window if the day ceiling is exceeded (regardless
of the others), else the hour window if the hour ceiling is exceeded,
else the minute window. -/
theorem retry_after_priority (store : ConfigStore) (apiKeyId professionalId : String)
    (t : Int) (table : TrackTable) :
    (dayExceeded (getRateLimitConfig store apiKeyId professionalId)
        (effCounts (table apiKeyId) (minuteFloor t) (hourFloor t) (dayFloor t)) = true →
      (checkRateLimit store apiKeyId professionalId (constClock t) table).1.retryAfter
        = some (ceilSeconds (dayEnd t - t))) ∧
    (dayExceeded (getRateLimitConfig store apiKeyId professionalId)
        (effCounts (table apiKeyId) (minuteFloor t) (hourFloor t) (dayFloor t)) = false →
      hourExceeded (getRateLimitConfig store apiKeyId professionalId)
        (effCounts (table apiKeyId) (minuteFloor t) (hourFloor t) (dayFloor t)) = true →
      (checkRateLimit store apiKeyId professionalId (constClock t) table).1.retryAfter
        = some (ceilSeconds (hourEnd t - t))) ∧
    (dayExceeded (getRateLimitConfig store apiKeyId professionalId)
        (effCounts (table apiKeyId) (minuteFloor t) (hourFloor t) (dayFloor t)) = false →
      hourExceeded (getRateLimitConfig store apiKeyId professionalId)
        (effCounts (table apiKeyId) (minuteFloor t) (hourFloor t) (dayFloor t)) = false →
      minuteExceeded (getRateLimitConfig store apiKeyId professionalId)
        (effCounts (table apiKeyId) (minuteFloor t) (hourFloor t) (dayFloor t)) = true →
      (checkRateLimit store apiKeyId professionalId (constClock t) table).1.retryAfter
        = some (ceilSeconds (minuteEnd t - t))) := by
  refine ⟨?_, ?_, ?_⟩
  · intro hd
    simp [checkRateLimit, checkWindows, constClock, hd]
  · intro hd hh
    simp [checkRateLimit, checkWindows, constClock, hd, hh]
  · intro hd hh hm
    simp [checkRateLimit, checkWindows, constClock, hd, hh, hm]

/-- Witness for `retry_after_priority`: with the day counter at the
default day ceiling, the denial's retry-after is the seconds to the next
day boundary. -/
theorem retry_after_priority_witness :
    dayExceeded (getRateLimitConfig emptyConfigStore "key1" "p1")
      (effCounts (dayFullTable "key1") (minuteFloor 0) (hourFloor 0) (dayFloor 0)) = true ∧
    (checkRateLimit emptyConfigStore "key1" "p1" (constClock 0) dayFullTable).1.retryAfter
      = some (ceilSeconds (dayEnd 0 - 0)) :=
  ⟨by decide, (retry_after_priority emptyConfigStore "key1" "p1" 0 dayFullTable).1 (by decide)⟩

/-- Every normal completion of the handler's try block logs exactly one
entry, whose status is the response status. -/
lemma tryBody_shape (o : GatewayOracle) :
    (∃ e, tryBody o = .error e) ∨ ∃ s, tryBody o = .ok (s, [s]) := by
  unfold tryBody
  repeat' split
  all_goals first
    | exact .inl ⟨_, rfl⟩
    | exact .inr ⟨_, rfl⟩

/-- C8: every call entering the pipeline (any non-preflight method; the
CORS `OPTIONS` short-circuit is HTTP routing, outside the pipeline)
invokes `finalizeRequest` exactly once before the response is returned —
on the method-not-allowed, missing-key, invalid-key, rate-limit-denial,
invalid-JSON, collaborator-failure and success paths, and on unexpected
throws from the rate limiter or the collaborator, which the catch-all
boundary logs as an internal error. -/
theorem pipeline_finalizes_exactly_once (o : GatewayOracle)
    (h : o.method ≠ "OPTIONS") :
    (handleSubmitLead o).2.length = 1 := by
  unfold handleSubmitLead
  rw [if_neg h]
  rcases tryBody_shape o with ⟨e, he⟩ | ⟨s, hs⟩
  · simp [he]
  · simp [hs]

/-- Witness for `pipeline_finalizes_exactly_once`: a POST with no API
key header logs exactly once. -/
theorem pipeline_finalizes_exactly_once_witness :
    missingKeyOracle.method ≠ "OPTIONS" ∧
    (handleSubmitLead missingKeyOracle).2.length = 1 :=
  ⟨by decide, pipeline_finalizes_exactly_once missingKeyOracle (by decide)⟩

/-- A syntactically valid key is non-empty. -/
lemma validKeyFormat_ne_empty (apiKey : String) (h : validKeyFormat apiKey = true) :
    apiKey ≠ "" := by
  intro he
  subst he
  exact absurd h (by decide)

/-- C5: `validateApiKey` applies its checks in order, each with its
typed rejection: a format violation fails with `invalid_api_key_format`
for every store (no lookup involved); then a failed digest lookup fails
`invalid_api_key`; then an unset active flag fails `inactive_api_key`;
then a set revocation time fails `revoked_api_key`; then a passed
expiry fails `expired_api_key`; a key passing all checks yields the
credential id and tenant (professional) id. -/
theorem validate_checks_in_order (hashKey : String → String) (now : Int)
    (apiKey : String) (store : KeyStore) :
    (apiKey ≠ "" → validKeyFormat apiKey = false →
      (validateApiKey hashKey now apiKey store).1 =
        { isValid := false, errorCode := some "invalid_api_key_format" }) ∧
    (validKeyFormat apiKey = true → lookupByHash store (hashKey apiKey) = none →
      (validateApiKey hashKey now apiKey store).1 =
        { isValid := false, errorCode := some "invalid_api_key" }) ∧
    (∀ data, validKeyFormat apiKey = true →
      lookupByHash store (hashKey apiKey) = some data → data.is_active = false →
      (validateApiKey hashKey now apiKey store).1 =
        { isValid := false, errorCode := some "inactive_api_key" }) ∧
    (∀ data, validKeyFormat apiKey = true →
      lookupByHash store (hashKey apiKey) = some data → data.is_active = true →
      data.revoked_at.isSome = true →
      (validateApiKey hashKey now apiKey store).1 =
        { isValid := false, errorCode := some "revoked_api_key" }) ∧
    (∀ data, validKeyFormat apiKey = true →
      lookupByHash store (hashKey apiKey) = some data → data.is_active = true →
      data.revoked_at = none → isExpired data now = true →
      (validateApiKey hashKey now apiKey store).1 =
        { isValid := false, errorCode := some "expired_api_key" }) ∧
    (∀ data, validKeyFormat apiKey = true →
      lookupByHash store (hashKey apiKey) = some data → data.is_active = true →
      data.revoked_at = none → isExpired data now = false →
      (validateApiKey hashKey now apiKey store).1 =
        { isValid := true, professionalId := some data.professional_id
          apiKeyId := some data.id }) := by
  refine ⟨?_, ?_, ?_, ?_, ?_, ?_⟩
  · intro hne hf
    simp [validateApiKey, hne, hf]
  · intro hf hlook
    simp [validateApiKey, validKeyFormat_ne_empty apiKey hf, hf, hlook]
  · intro data hf hlook hact
    simp [validateApiKey, validKeyFormat_ne_empty apiKey hf, hf, hlook, hact]
  · intro data hf hlook hact hrev
    simp [validateApiKey, validKeyFormat_ne_empty apiKey hf, hf, hlook, hact, hrev]
  · intro data hf hlook hact hrev hexp
    simp [validateApiKey, validKeyFormat_ne_empty apiKey hf, hf, hlook, hact, hrev, hexp]
  · intro data hf hlook hact hrev hexp
    simp [validateApiKey, validKeyFormat_ne_empty apiKey hf, hf, hlook, hact, hrev, hexp]

/-- Witness for `validate_checks_in_order`: a well-formed key absent
from the store fails `invalid_api_key`. -/
theorem validate_checks_in_order_witness :
    validKeyFormat wfKey = true ∧
    lookupByHash ([] : KeyStore) (idHash wfKey) = none ∧
    (validateApiKey idHash 0 wfKey ([] : KeyStore)).1 =
      { isValid := false, errorCode := some "invalid_api_key" } :=
  ⟨by decide, rfl, (validate_checks_in_order idHash 0 wfKey ([] : KeyStore)).2.1 (by decide) rfl⟩

/-- Deactivation rewrites rows in place and preserves `key_hash`, so
filtering by hash commutes with it. -/
lemma filter_deactivate (store : KeyStore) (kid h : String) :
    (deactivateKey store kid).filter (fun row => row.key_hash = h) =
      (store.filter (fun row => row.key_hash = h)).map
        (fun row => if row.id = kid then { row with is_active := false } else row) := by
  unfold deactivateKey
  induction store with
  | nil => rfl
  | cons a t ih =>
    by_cases ha : a.id = kid <;> by_cases hh : a.key_hash = h <;>
      simp [ha, hh, ih] at *

/-- The hash lookup after deactivation sees the updated row. -/
lemma lookupByHash_deactivate (store : KeyStore) (kid h : String) :
    lookupByHash (deactivateKey store kid) h =
      (lookupByHash store h).map
        (fun row => if row.id = kid then { row with is_active := false } else row) := by
  unfold lookupByHash
  rw [filter_deactivate]
  cases hf : store.filter (fun row => row.key_hash = h) with
  | nil => rfl
  | cons a t =>
    cases t with
    | nil => rfl
    | cons b u => rfl

/-- Inversion of an `expired_api_key` outcome: the key was well-formed,
found by hash, active, and the store after the call is the store with
that row deactivated. -/
lemma validate_expired_inv (hashKey : String → String) (now : Int)
    (apiKey : String) (store : KeyStore)
    (h : (validateApiKey hashKey now apiKey store).1.errorCode = some "expired_api_key") :
    ∃ data, validKeyFormat apiKey = true ∧
      lookupByHash store (hashKey apiKey) = some data ∧
      (validateApiKey hashKey now apiKey store).2 = deactivateKey store data.id := by
  unfold validateApiKey at h ⊢
  split at h
  next => simp at h
  next he =>
    split at h
    next => simp at h
    next hf =>
      dsimp only at h
      split at h
      next => simp at h
      next data hlook =>
        split at h
        next => simp at h
        next hact =>
          split at h
          next => simp at h
          next hrev =>
            split at h
            next hexp =>
              refine ⟨data, ?_, hlook, ?_⟩
              · simp at hf
                exact hf
              · simp [he, hf, hlook, hact, hrev, hexp]
            next => simp at h

/-- C6: when `validateApiKey` rejects a presented key as expired, it
persists `is_active = false` for that credential, so a second call with
the same key against the post-call store fails as inactive — expiry
deactivation is persisted state, not recomputed per call. -/
theorem expired_deactivation_persists (hashKey : String → String) (now now' : Int)
    (apiKey : String) (store : KeyStore)
    (h : (validateApiKey hashKey now apiKey store).1.errorCode = some "expired_api_key") :
    (validateApiKey hashKey now' apiKey
        ((validateApiKey hashKey now apiKey store).2)).1.errorCode
      = some "inactive_api_key" := by
  obtain ⟨data, hfmt, hlook, hst⟩ := validate_expired_inv hashKey now apiKey store h
  rw [hst]
  have hne := validKeyFormat_ne_empty apiKey hfmt
  have hlook2 : lookupByHash (deactivateKey store data.id) (hashKey apiKey)
      = some { data with is_active := false } := by
    rw [lookupByHash_deactivate, hlook]
    simp
  simp [validateApiKey, hne, hfmt, hlook2]

/-- Witness for `expired_deactivation_persists`: a key that expired at
time 5, presented at time 10, is rejected as expired; presenting it
again at time 20 against the resulting store is rejected as inactive. -/
theorem expired_deactivation_persists_witness :
    (validateApiKey idHash 10 wfKey expiredStore).1.errorCode = some "expired_api_key" ∧
    (validateApiKey idHash 20 wfKey
        ((validateApiKey idHash 10 wfKey expiredStore).2)).1.errorCode
      = some "inactive_api_key" :=
  ⟨by decide, expired_deactivation_persists idHash 10 20 wfKey expiredStore (by decide)⟩

/-- Dropping the length of the left part of an append leaves the right
part. -/
lemma drop_length_append {α : Type} (l₁ l₂ : List α) (n : Nat)
    (h : l₁.length = n) : (l₁ ++ l₂).drop n = l₂ := by
  subst h
  simp

/-- Taking the length of the left part of an append leaves the left
part. -/
lemma take_length_append {α : Type} (l₁ l₂ : List α) (n : Nat)
    (h : l₁.length = n) : (l₁ ++ l₂).take n = l₁ := by
  subst h
  simp

/-- C7 counterexample to the claim as stated: sanitization is keyed on
the literal field name `client_phone`, so a phone-number-shaped value
under the field name `phone` passes through unmasked; and a
`client_phone` value of length at most 4 becomes the fixed string
`"****"`, which does not preserve the original length. -/
theorem sanitize_misses_phone_shaped_field :
    specPhoneShaped "0501234567" = true ∧
    sanitizeRequestBody cexBody "phone" = some (RValue.str "0501234567") ∧
    sanitizeRequestBody cexBody "client_phone" = some (RValue.str "****") ∧
    ("****" : String).length ≠ ("123" : String).length := by
  decide

/-- C7 (amended): `sanitizeRequestBody` is a pure total function of the
body; it removes `password`, `token` and `api_key`, leaves every other
field except `client_phone` unchanged, masks a string `client_phone` of
length greater than 4 to a same-length string that keeps exactly the
last four characters and stars the rest, and replaces a non-empty
string `client_phone` of length at most 4 by the fixed mask `"****"`. -/
theorem sanitize_field_behavior (body : Body) :
    sanitizeRequestBody body "password" = none ∧
    sanitizeRequestBody body "token" = none ∧
    sanitizeRequestBody body "api_key" = none ∧
    (∀ k, k ≠ "client_phone" → k ≠ "password" → k ≠ "token" → k ≠ "api_key" →
      sanitizeRequestBody body k = body k) ∧
    (∀ s, body "client_phone" = some (RValue.str s) → 4 < s.length →
      ∃ t, sanitizeRequestBody body "client_phone" = some (RValue.str t) ∧
        t.length = s.length ∧
        t.data.drop (t.length - 4) = s.data.drop (s.length - 4) ∧
        t.data.take (t.length - 4) = List.replicate (s.length - 4) '*') ∧
    (∀ s, body "client_phone" = some (RValue.str s) → s ≠ "" → s.length ≤ 4 →
      sanitizeRequestBody body "client_phone" = some (RValue.str "****")) := by
  refine ⟨?_, ?_, ?_, ?_, ?_, ?_⟩
  · simp [sanitizeRequestBody, Body.del]
  · simp [sanitizeRequestBody, Body.del]
  · simp [sanitizeRequestBody, Body.del]
  · intro k h1 h2 h3 h4
    rcases hcp : body "client_phone" with _ | v
    · simp [sanitizeRequestBody, Body.del, hcp, h1, h2, h3, h4]
    · cases v with
      | str s =>
        by_cases hs : s = "" <;>
          simp [sanitizeRequestBody, Body.del, Body.set, hcp, hs, h1, h2, h3, h4]
      | other n =>
        simp [sanitizeRequestBody, Body.del, hcp, h1, h2, h3, h4]
  · intro s hcp hlen
    have hs0 : s ≠ "" := by
      intro h0
      subst h0
      exact absurd hlen (by decide)
    have hdata : (maskPhone s).data =
        List.replicate (s.length - 4) '*' ++ s.data.drop (s.length - 4) := by
      unfold maskPhone
      rw [if_pos hlen]
    have hrep : (List.replicate (s.length - 4) '*').length = s.length - 4 :=
      List.length_replicate ..
    have hlen' : (maskPhone s).length = s.length := by
      show (maskPhone s).data.length = s.data.length
      rw [hdata]
      simp only [List.length_append, List.length_replicate, List.length_drop]
      have : s.data.length = s.length := rfl
      omega
    refine ⟨maskPhone s, ?_, hlen', ?_, ?_⟩
    · simp [sanitizeRequestBody, Body.del, Body.set, hcp, hs0]
    · rw [hlen', hdata]
      exact drop_length_append _ _ _ hrep
    · rw [hlen', hdata]
      exact take_length_append _ _ _ hrep
  · intro s hcp hs hlen4
    have h4 : ¬ 4 < s.length := by omega
    simp [sanitizeRequestBody, Body.del, Body.set, hcp, hs, maskPhone, h4]

/-- Witness for `sanitize_field_behavior`: a body with a 3-character
`client_phone` and a `password` field sanitizes `client_phone` to
`"****"` and drops `password`. -/
theorem sanitize_field_behavior_witness :
    wBody "client_phone" = some (RValue.str "123") ∧
    ("123" : String) ≠ "" ∧
    ("123" : String).length ≤ 4 ∧
    sanitizeRequestBody wBody "client_phone" = some (RValue.str "****") ∧
    sanitizeRequestBody wBody "password" = none :=
  ⟨rfl, by decide, by decide,
    (sanitize_field_behavior wBody).2.2.2.2.2 "123" rfl (by decide) (by decide),
    (sanitize_field_behavior wBody).1⟩

end Ofair
